import Mathlib

/-!
Verification of the Job-AI-Agent pipeline (graph execution engine, state
merging, deduplication, validation and persistence layers).

Shallow embedding of the repository's Python sources:
* `src/src/state.py`    — the data model (`Job`, `Job_Info_state`, `Job_Summary`,
  `Job_Feadback`, `GraphState`);
* `src/src/graph.py`    — the workflow topology (nodes and edges);
* `src/src/nodes.py`    — the five node functions, with the LLM/scraper
  adapters abstracted as function parameters returning `Except`;
* `src/src/structure_outputs.py` — the pydantic validation models
  (`JobInfo.limit`, `Resume`, `SimilarAndFeedback`);
* `src/src/tools/scraping_tools.py` — `fetch_dataset_items_with_wait`;
* `src/src/api.py`      — the `process_job_search` handler's post-workflow flow;
* `src/src/db_operations.py` — `save_workflow_results` over an explicit
  session-operation trace.

The LangGraph engine itself is a third-party library, not part of the
repository; where run-level semantics are needed they are modelled from the
spec (superstep scheduling, join semantics, fail-fast error propagation) and
marked as such, while every node body and every validation rule is translated
from the repository's own sources.
-/

namespace JobAgent

/-- Job record scraped from LinkedIn, as declared in `src/src/state.py`
(`class Job(BaseModel)`): nineteen string fields. -/
structure Job where
  id : String
  url : String
  title : String
  location : String
  companyName : String
  companyUrl : String
  recruiterName : String
  recruiterUrl : String
  experienceLevel : String
  contractType : String
  workType : String
  sector : String
  salary : String
  applyType : String
  applyUrl : String
  postedTimeAgo : String
  postedDate : String
  applicationsCount : String
  description : String
deriving DecidableEq, Repr

/-- Helper producing a `Job` whose fields other than `id` and `description`
are empty strings (for concrete test inputs). -/
def mkJob (id description : String) : Job :=
  { id := id, url := "", title := "", location := "", companyName := ""
    companyUrl := "", recruiterName := "", recruiterUrl := ""
    experienceLevel := "", contractType := "", workType := "", sector := ""
    salary := "", applyType := "", applyUrl := "", postedTimeAgo := ""
    postedDate := "", applicationsCount := "", description := description }

/-- Structured job-search parameters, `class Job_Info_state(BaseModel)` in
`src/src/state.py`. -/
structure Job_Info_state where
  title : Option String
  location : Option String
  datePosted : Option String
  companyName : Option (List String)
  companyId : Option (List String)
  skipJobId : Option (List String)
  remote : Option (List String)
  experienceLevel : Option (List String)
  contractType : Option (List String)
  limit : Option Int
deriving DecidableEq, Repr

/-- Summary of one job description. `src/src/state.py` declares
`Job_Summary(TypedDict)` with `id: int`, but `nodes.py` stores `job.id`
(a string, `Job.id`) in it, so the id is modelled as `String`. The pydantic
`Job_Summary` of `src/src/structure_outputs.py` (the LLM's structured output,
with `id : str`) has the same three fields and is modelled by this same
structure. -/
structure Job_Summary where
  job_info : String
  job_skills : List String
  id : String
deriving DecidableEq, Repr

/-- Feedback record, `class Job_Feadback(BaseModel)` in `src/src/state.py`
(sic — the source misspells "Feedback"; `nodes.py` and `db_operations.py`
refer to it as `Job_Feedback`). `job_id` is declared `int` but receives
`job.id`, a string, so it is modelled as `String`. -/
structure Job_Feadback where
  similarity : Int
  job_id : String
  feedback : String
deriving DecidableEq, Repr

/-- Runtime value of the `Education` field of the extracted resume: the
pydantic default in `src/src/structure_outputs.py` is the raw *string*
`'[No Education]'` (defaults are not validated), while a value supplied by
the model is coerced to a list of strings. -/
inductive EducationValue where
  | strVal (s : String)
  | listVal (l : List String)
deriving DecidableEq, Repr

/-- Structured resume fields, `class Resume(BaseModel)` in
`src/src/structure_outputs.py`. This (not `state.py`'s `Resume_Fields`,
which is never instantiated) is the runtime type stored in the
`resume_fields` state key by `extract_fields_from_resume`. -/
structure Resume where
  skills : List String
  profile : String
  Projects : List String
  Certifications : List String
  Experience : List String
  Education : EducationValue
deriving DecidableEq, Repr

/-- Structured output of the match-feedback agent,
`class SimilarAndFeedback(BaseModel)` in `src/src/structure_outputs.py`:
`similarity: int` (no range constraint is declared on the field) and
`feedback: str`. -/
structure SimilarAndFeedback where
  similarity : Int
  feedback : String
deriving DecidableEq, Repr

/-- Workflow state, `class GraphState(TypedDict)` in `src/src/state.py`.
Fields written by exactly one node and absent until then (`resume_text`,
`jobs`, `resume_fields`, `job_info`) are `Option`s; `job_summaries` and
`job_feedbacks` are `Annotated[..., operator.add]` accumulator channels that
LangGraph initialises empty, so they are plain lists; `user_input`,
`visited_ids` and `visited_ids_feedback` are seeded by the caller
(`main.py` / `api.py`). No node ever writes the `job_info` key. -/
structure GraphState where
  user_input : String
  job_info : Option Job_Info_state
  resume_text : Option String
  jobs : Option (List Job)
  visited_ids : Finset String
  job_summaries : List Job_Summary
  resume_fields : Option Resume
  job_feedbacks : List Job_Feadback
  visited_ids_feedback : Finset String
deriving DecidableEq

/-! ## Workflow topology (`src/src/graph.py`, `Workflow.__init__`) -/

/-- The nodes of the compiled workflow: the five nodes added by
`workflow.add_node` in `src/src/graph.py`, plus LangGraph's synthetic
`START` and `END`. -/
inductive GNode where
  | START
  | job_searching_node
  | resume_text_extractor
  | extract_fields_from_resume
  | extract_fields_from_job_desc
  | Feedback_and_similarity
  | END
deriving DecidableEq, Repr

/-- All workflow nodes. -/
def allNodes : List GNode :=
  [.START, .job_searching_node, .resume_text_extractor,
   .extract_fields_from_resume, .extract_fields_from_job_desc,
   .Feedback_and_similarity, .END]

/-- The edge list exactly as wired by the `workflow.add_edge` calls in
`src/src/graph.py` (lines 59-71). -/
def workflowEdges : List (GNode × GNode) :=
  [(.START, .job_searching_node),
   (.job_searching_node, .extract_fields_from_job_desc),
   (.START, .resume_text_extractor),
   (.resume_text_extractor, .extract_fields_from_resume),
   (.extract_fields_from_job_desc, .Feedback_and_similarity),
   (.extract_fields_from_resume, .Feedback_and_similarity),
   (.Feedback_and_similarity, .END)]

/-- Modelled from the spec: a completed run of the compiled workflow, as an
execution order of node completions. The LangGraph scheduler itself is not
part of the repository; per the spec's scheduler state machine, each node
executes once it is READY (all predecessors DONE, node itself PENDING), so a
completed run is a duplicate-free enumeration of every node in which each
edge's consumer completes after its producer. -/
def ValidExec (run : List GNode) : Prop :=
  run.Nodup ∧ (∀ n ∈ allNodes, n ∈ run) ∧
    ∀ e ∈ workflowEdges, run.indexOf e.1 < run.indexOf e.2

instance (run : List GNode) : Decidable (ValidExec run) := by
  unfold ValidExec; infer_instance

theorem mem_of_validExec {run : List GNode} (h : ValidExec run) (n : GNode) :
    n ∈ run := by
  refine h.2.1 n ?_
  cases n <;> simp [allNodes]

/-- Claim C1: in every run of the compiled workflow, the join node
`Feedback_and_similarity` executes exactly once, and only after both
predecessor branches — `job_searching_node` followed by
`extract_fields_from_job_desc`, and `resume_text_extractor` followed by
`extract_fields_from_resume` — have completed. -/
theorem join_executes_once_after_both_branches (run : List GNode)
    (h : ValidExec run) :
    run.count GNode.Feedback_and_similarity = 1 ∧
    run.indexOf GNode.extract_fields_from_job_desc <
      run.indexOf GNode.Feedback_and_similarity ∧
    run.indexOf GNode.extract_fields_from_resume <
      run.indexOf GNode.Feedback_and_similarity ∧
    run.indexOf GNode.job_searching_node <
      run.indexOf GNode.extract_fields_from_job_desc ∧
    run.indexOf GNode.resume_text_extractor <
      run.indexOf GNode.extract_fields_from_resume := by
  obtain ⟨hnd, hmem, hedge⟩ := h
  refine ⟨List.count_eq_one_of_mem hnd (mem_of_validExec ⟨hnd, hmem, hedge⟩ _),
    ?_, ?_, ?_, ?_⟩
  · exact hedge (.extract_fields_from_job_desc, .Feedback_and_similarity)
      (by decide)
  · exact hedge (.extract_fields_from_resume, .Feedback_and_similarity)
      (by decide)
  · exact hedge (.job_searching_node, .extract_fields_from_job_desc) (by decide)
  · exact hedge (.resume_text_extractor, .extract_fields_from_resume) (by decide)

/-- Witness for C1: a concrete valid execution order of the compiled
workflow, on which the join-node property is discharged. -/
theorem join_executes_once_after_both_branches_witness :
    [GNode.START, .job_searching_node, .extract_fields_from_job_desc,
      .resume_text_extractor, .extract_fields_from_resume,
      .Feedback_and_similarity, .END].count GNode.Feedback_and_similarity = 1 :=
  (join_executes_once_after_both_branches
    [.START, .job_searching_node, .extract_fields_from_job_desc,
     .resume_text_extractor, .extract_fields_from_resume,
     .Feedback_and_similarity, .END] (by decide)).1

/-! ## Node functions (`src/src/nodes.py`)

Each node reads the shared state and returns a partial update, or an error
when its adapter (LLM agent, scraper, PDF reader) raises. Adapters are
abstracted as `Except`-valued function parameters. -/

/-- Partial state update returned by one node execution. `none` / `[]` means
the node did not write the field; `job_summaries` and `job_feedbacks` are
`operator.add` deltas appended to the channel. -/
structure NodeUpdate where
  resume_text : Option String := none
  jobs : Option (List Job) := none
  visited_ids : Option (Finset String) := none
  job_summaries : List Job_Summary := []
  resume_fields : Option Resume := none
  job_feedbacks : List Job_Feadback := []
  visited_ids_feedback : Option (Finset String) := none
deriving DecidableEq

/-- Merge one node's partial update into the state: scalar channels are
last-value (a written value replaces the stored one), `job_summaries` and
`job_feedbacks` are combined with `operator.add` (list append), as declared
by the `Annotated` fields of `GraphState` in `src/src/state.py`. -/
def GraphState.applyUpdate (s : GraphState) (u : NodeUpdate) : GraphState :=
  { s with
    resume_text := u.resume_text.orElse fun _ => s.resume_text
    jobs := u.jobs.orElse fun _ => s.jobs
    visited_ids := u.visited_ids.getD s.visited_ids
    job_summaries := s.job_summaries ++ u.job_summaries
    resume_fields := u.resume_fields.orElse fun _ => s.resume_fields
    job_feedbacks := s.job_feedbacks ++ u.job_feedbacks
    visited_ids_feedback := u.visited_ids_feedback.getD s.visited_ids_feedback }

/-- Node `job_searching_node`: structures the user input with the job-input
agent, scrapes listings, and writes the `jobs` key (and nothing else). -/
def job_searching_node (job_input_agent : String → Except String Job_Info_state)
    (scraper : Job_Info_state → Except String (List Job)) (s : GraphState) :
    Except String NodeUpdate :=
  match job_input_agent s.user_input with
  | .error e => .error e
  | .ok info =>
    match scraper info with
    | .error e => .error e
    | .ok l => .ok { jobs := some l }

/-- Node `resume_text_extractor`: reads the resume PDF from a fixed path
(the reading is the `pdf_reader` adapter) and writes `resume_text`. -/
def resume_text_extractor (pdf_reader : Except String String)
    (_s : GraphState) : Except String NodeUpdate :=
  match pdf_reader with
  | .error e => .error e
  | .ok text => .ok { resume_text := some text }

/-- Node `extract_fields_from_resume`: runs the resume agent on
`state['resume_text']` and writes `resume_fields`. A missing key is a
`KeyError` in the Python source. -/
def extract_fields_from_resume (resume_agent : String → Except String Resume)
    (s : GraphState) : Except String NodeUpdate :=
  match s.resume_text with
  | none => .error "KeyError: resume_text"
  | some text =>
    match resume_agent text with
    | .error e => .error e
    | .ok rf => .ok { resume_fields := some rf }

/-- The loop of `Nodes.extract_fields_from_job_desc`: for each job whose id
is not in the visited set, add the id to the set, invoke the summary agent
on the job's description, and collect a summary carrying `id := job.id`;
jobs whose id is already visited are skipped. -/
def summarizeLoop (job_summary_agent : String → Except String Job_Summary) :
    List Job → Finset String → Except String (List Job_Summary × Finset String)
  | [], visited => .ok ([], visited)
  | j :: rest, visited =>
    if j.id ∈ visited then summarizeLoop job_summary_agent rest visited
    else
      match job_summary_agent j.description with
      | .error e => .error e
      | .ok out =>
        match summarizeLoop job_summary_agent rest (insert j.id visited) with
        | .error e => .error e
        | .ok (sums, v) =>
          .ok ({ job_info := out.job_info, job_skills := out.job_skills,
                 id := j.id } :: sums, v)

/-- Node `extract_fields_from_job_desc`: summarizes every unvisited job of
`state['jobs']` and writes the `job_summaries` delta and the updated
`visited_ids`. On an agent failure the exception propagates: no update
(in particular no already-computed summary) is returned. -/
def extract_fields_from_job_desc
    (job_summary_agent : String → Except String Job_Summary) (s : GraphState) :
    Except String NodeUpdate :=
  match s.jobs with
  | none => .error "KeyError: jobs"
  | some jobs =>
    match summarizeLoop job_summary_agent jobs s.visited_ids with
    | .error e => .error e
    | .ok (sums, visited) =>
      .ok { job_summaries := sums, visited_ids := some visited }

/-- The loop of `Nodes.Feedback_and_similarity` as the source executes it:
each iteration begins with the read `job.id` (`nodes.py` line 237) — but
the summaries stored in the state are `Job_Summary(TypedDict)` values,
plain dicts, so this attribute access raises `AttributeError` on the very
first item, before the visited check, the resume-field reads or the agent
call; were it to get past that, building the result at line 256 would hit
the undefined name `Job_Feedback` (`state.py` defines only `Job_Feadback`).
Only an empty summaries list completes, returning no feedbacks and the
visited set unchanged. -/
def feedbackLoop : List Job_Summary → Finset String →
    Except String (List Job_Feadback × Finset String)
  | [], visited => .ok ([], visited)
  | _ :: _, _ => .error "AttributeError: dict object has no attribute id"

/-- Node `Feedback_and_similarity` (the join) as it behaves at runtime:
reads `visited_ids_feedback`, iterates over `job_summaries` (raising on the
first summary, see `feedbackLoop`), and on the only completing path (no
summaries) writes an empty `job_feedbacks` delta and the unchanged visited
set. `resume_fields` is read only inside the loop body (line 241), hence
never on a reachable path. The bound feedback adapter is kept as a
parameter to document the intended call at line 249, which no reachable
path performs. -/
def Feedback_and_similarity
    (_feedback_agent : List String → String → List String → String →
      Except String SimilarAndFeedback) (s : GraphState) :
    Except String NodeUpdate :=
  match feedbackLoop s.job_summaries s.visited_ids_feedback with
  | .error e => .error e
  | .ok (fbs, visited) =>
    .ok { job_feedbacks := fbs, visited_ids_feedback := some visited }

/-! ## Run model

Modelled from the spec: the LangGraph scheduler (a third-party library, not
part of the repository) runs the two branches in lockstep supersteps — both
nodes of a superstep read the same snapshot, finish in either order, and
their updates are merged in completion order; on the first node error the
run is FAILED with the erroring node's identity, updates of nodes that
already finished are still merged, and nothing new is launched. -/

/-- Outcome of a run: COMPLETED, or FAILED with the erroring node's
identity and exception message. -/
inductive RunOutcome where
  | completed
  | failed (node : GNode) (err : String)
deriving DecidableEq, Repr

/-- Whether a run completed. -/
def RunOutcome.isCompleted : RunOutcome → Bool
  | .completed => true
  | .failed _ _ => false

/-- Merge a node result into the state: a successful update is applied, an
error leaves the state unchanged (the failed node returns nothing). -/
def applyResult (s : GraphState) : Except String NodeUpdate → GraphState
  | .ok u => s.applyUpdate u
  | .error _ => s

/-- Merge the two results of one superstep in completion order: `order =
true` means the first node finished first. -/
def mergeStep (order : Bool) (s : GraphState)
    (r1 r2 : Except String NodeUpdate) : GraphState :=
  if order then applyResult (applyResult s r1) r2
  else applyResult (applyResult s r2) r1

/-- The error a node result reports, tagged with the node's identity. -/
def errOf (n : GNode) : Except String NodeUpdate → Option (GNode × String)
  | .ok _ => none
  | .error e => some (n, e)

/-- First error of a superstep in completion order, if any. -/
def stepError (order : Bool) (n1 n2 : GNode)
    (r1 r2 : Except String NodeUpdate) : Option (GNode × String) :=
  if order then (errOf n1 r1).orElse fun _ => errOf n2 r2
  else (errOf n2 r2).orElse fun _ => errOf n1 r1

/-- The run from the second superstep on (summarization and resume-field
extraction in completion order `o2`, then the join), given the state merged
after the first superstep. -/
def runTail (job_summary_agent : String → Except String Job_Summary)
    (resume_agent : String → Except String Resume)
    (feedback_agent : List String → String → List String → String →
      Except String SimilarAndFeedback)
    (o2 : Bool) (s1 : GraphState) : RunOutcome × GraphState :=
  let r3 := extract_fields_from_job_desc job_summary_agent s1
  let r4 := extract_fields_from_resume resume_agent s1
  let s2 := mergeStep o2 s1 r3 r4
  match stepError o2 .extract_fields_from_job_desc
      .extract_fields_from_resume r3 r4 with
  | some (n, e) => (.failed n e, s2)
  | none =>
    match Feedback_and_similarity feedback_agent s2 with
    | .error e => (.failed .Feedback_and_similarity e, s2)
    | .ok u => (.completed, s2.applyUpdate u)

/-- One full run of the compiled workflow on initial state `s0`. `o1` and
`o2` give the completion order inside the first and second superstep
(`search`/`extract-resume-text`, then `summarize-listings`/
`extract-resume-fields`); the join runs alone in the third superstep. -/
def runWorkflow (job_input_agent : String → Except String Job_Info_state)
    (scraper : Job_Info_state → Except String (List Job))
    (pdf_reader : Except String String)
    (resume_agent : String → Except String Resume)
    (job_summary_agent : String → Except String Job_Summary)
    (feedback_agent : List String → String → List String → String →
      Except String SimilarAndFeedback)
    (o1 o2 : Bool) (s0 : GraphState) : RunOutcome × GraphState :=
  let r1 := job_searching_node job_input_agent scraper s0
  let r2 := resume_text_extractor pdf_reader s0
  let s1 := mergeStep o1 s0 r1 r2
  match stepError o1 .job_searching_node .resume_text_extractor r1 r2 with
  | some (n, e) => (.failed n e, s1)
  | none => runTail job_summary_agent resume_agent feedback_agent o2 s1

/-! ## Determinism of the merge (claim C3) -/

theorem orElse_comm_of_none {α : Type} {a b : Option α}
    (h : a = none ∨ b = none) (c : Option α) :
    (a.orElse fun _ => b.orElse fun _ => c) =
      (b.orElse fun _ => a.orElse fun _ => c) := by
  rcases h with h | h <;> subst h
  · cases b <;> rfl
  · cases a <;> rfl

theorem getD_comm_of_none {α : Type} {a b : Option α}
    (h : a = none ∨ b = none) (c : α) :
    b.getD (a.getD c) = a.getD (b.getD c) := by
  rcases h with h | h <;> subst h
  · cases b <;> rfl
  · cases a <;> rfl

theorem append_comm_of_nil {α : Type} {u v : List α}
    (h : u = [] ∨ v = []) (s : List α) : s ++ u ++ v = s ++ v ++ u := by
  rcases h with h | h <;> subst h <;> simp

/-- Merging two node updates commutes whenever, field by field, at most one
of them writes the field (the accumulator fields `job_summaries` and
`job_feedbacks` would even commute up to permutation, but in this pipeline
every superstep has at most one writer per field). -/
theorem applyUpdate_comm (s : GraphState) (u v : NodeUpdate)
    (hrt : u.resume_text = none ∨ v.resume_text = none)
    (hj : u.jobs = none ∨ v.jobs = none)
    (hvi : u.visited_ids = none ∨ v.visited_ids = none)
    (hjs : u.job_summaries = [] ∨ v.job_summaries = [])
    (hrf : u.resume_fields = none ∨ v.resume_fields = none)
    (hfb : u.job_feedbacks = [] ∨ v.job_feedbacks = [])
    (hvf : u.visited_ids_feedback = none ∨ v.visited_ids_feedback = none) :
    (s.applyUpdate u).applyUpdate v = (s.applyUpdate v).applyUpdate u := by
  simp only [GraphState.applyUpdate, GraphState.mk.injEq]
  exact ⟨trivial, trivial, orElse_comm_of_none hrt.symm _,
    orElse_comm_of_none hj.symm _, getD_comm_of_none hvi _,
    append_comm_of_nil hjs _, orElse_comm_of_none hrf.symm _,
    append_comm_of_nil hfb _, getD_comm_of_none hvf _⟩

/-- A successful `job_searching_node` writes only the `jobs` key. -/
theorem job_searching_node_writes_only_jobs {a b s u}
    (h : job_searching_node a b s = .ok u) :
    u.resume_text = none ∧ u.visited_ids = none ∧ u.job_summaries = [] ∧
      u.resume_fields = none ∧ u.job_feedbacks = [] ∧
      u.visited_ids_feedback = none := by
  unfold job_searching_node at h
  split at h
  · exact Except.noConfusion h
  · split at h
    · exact Except.noConfusion h
    · injection h with h; subst h; exact ⟨rfl, rfl, rfl, rfl, rfl, rfl⟩

/-- A successful `resume_text_extractor` writes only `resume_text`. -/
theorem resume_text_extractor_writes_only_text {c s u}
    (h : resume_text_extractor c s = .ok u) :
    u.jobs = none ∧ u.visited_ids = none ∧ u.job_summaries = [] ∧
      u.resume_fields = none ∧ u.job_feedbacks = [] ∧
      u.visited_ids_feedback = none := by
  unfold resume_text_extractor at h
  split at h
  · exact Except.noConfusion h
  · injection h with h; subst h; exact ⟨rfl, rfl, rfl, rfl, rfl, rfl⟩

/-- A successful `extract_fields_from_job_desc` writes only `job_summaries`
and `visited_ids`. -/
theorem extract_job_desc_writes_only_summaries {e s u}
    (h : extract_fields_from_job_desc e s = .ok u) :
    u.resume_text = none ∧ u.jobs = none ∧ u.resume_fields = none ∧
      u.job_feedbacks = [] ∧ u.visited_ids_feedback = none := by
  unfold extract_fields_from_job_desc at h
  split at h
  · exact Except.noConfusion h
  · split at h
    · exact Except.noConfusion h
    · injection h with h; subst h; exact ⟨rfl, rfl, rfl, rfl, rfl⟩

/-- A successful `extract_fields_from_resume` writes only `resume_fields`. -/
theorem extract_resume_writes_only_fields {d s u}
    (h : extract_fields_from_resume d s = .ok u) :
    u.resume_text = none ∧ u.jobs = none ∧ u.visited_ids = none ∧
      u.job_summaries = [] ∧ u.job_feedbacks = [] ∧
      u.visited_ids_feedback = none := by
  unfold extract_fields_from_resume at h
  split at h
  · exact Except.noConfusion h
  · split at h
    · exact Except.noConfusion h
    · injection h with h; subst h; exact ⟨rfl, rfl, rfl, rfl, rfl, rfl⟩

/-- The merge of the first superstep does not depend on completion order. -/
theorem mergeStep_first_comm (o : Bool) (s0 : GraphState) (a b c) :
    mergeStep o s0 (job_searching_node a b s0) (resume_text_extractor c s0) =
      mergeStep true s0 (job_searching_node a b s0)
        (resume_text_extractor c s0) := by
  cases o
  · cases h1 : job_searching_node a b s0 with
    | error e => simp [mergeStep, applyResult]
    | ok u1 =>
      cases h2 : resume_text_extractor c s0 with
      | error e => simp [mergeStep, applyResult]
      | ok u2 =>
        obtain ⟨p1, p2, p3, p4, p5, p6⟩ := job_searching_node_writes_only_jobs h1
        obtain ⟨q1, q2, q3, q4, q5, q6⟩ := resume_text_extractor_writes_only_text h2
        simp only [mergeStep, applyResult, Bool.false_eq_true, if_false, if_pos]
        exact applyUpdate_comm s0 u2 u1 (Or.inr p1) (Or.inl q1)
          (Or.inl q2) (Or.inl q3) (Or.inl q4) (Or.inl q5) (Or.inl q6)
  · rfl

/-- The merge of the second superstep does not depend on completion order. -/
theorem mergeStep_second_comm (o : Bool) (s1 : GraphState) (e d) :
    mergeStep o s1 (extract_fields_from_job_desc e s1)
        (extract_fields_from_resume d s1) =
      mergeStep true s1 (extract_fields_from_job_desc e s1)
        (extract_fields_from_resume d s1) := by
  cases o
  · cases h3 : extract_fields_from_job_desc e s1 with
    | error er => simp [mergeStep, applyResult]
    | ok u3 =>
      cases h4 : extract_fields_from_resume d s1 with
      | error er => simp [mergeStep, applyResult]
      | ok u4 =>
        obtain ⟨p1, p2, p3, p4, p5⟩ := extract_job_desc_writes_only_summaries h3
        obtain ⟨q1, q2, q3, q4, q5, q6⟩ := extract_resume_writes_only_fields h4
        simp only [mergeStep, applyResult, Bool.false_eq_true, if_false, if_pos]
        exact applyUpdate_comm s1 u4 u3 (Or.inl q1) (Or.inl q2)
          (Or.inl q3) (Or.inl q4) (Or.inr p3) (Or.inl q5) (Or.inl q6)
  · rfl

/-- Final state and completion status of the run tail do not depend on the
completion order of the second superstep. -/
theorem runTail_pair_eq (e d f) (o2 : Bool) (s1 : GraphState) :
    ((runTail e d f o2 s1).2, (runTail e d f o2 s1).1.isCompleted) =
      ((runTail e d f true s1).2, (runTail e d f true s1).1.isCompleted) := by
  cases o2
  · cases h3 : extract_fields_from_job_desc e s1 with
    | error er =>
      cases h4 : extract_fields_from_resume d s1 with
      | error er2 =>
        simp [runTail, stepError, errOf, mergeStep, applyResult, h3, h4,
          Option.orElse, RunOutcome.isCompleted]
      | ok u4 =>
        simp [runTail, stepError, errOf, mergeStep, applyResult, h3, h4,
          Option.orElse, RunOutcome.isCompleted]
    | ok u3 =>
      cases h4 : extract_fields_from_resume d s1 with
      | error er2 =>
        simp [runTail, stepError, errOf, mergeStep, applyResult, h3, h4,
          Option.orElse, RunOutcome.isCompleted]
      | ok u4 =>
        obtain ⟨p1, p2, p3, p4, p5⟩ := extract_job_desc_writes_only_summaries h3
        obtain ⟨q1, q2, q3, q4, q5, q6⟩ := extract_resume_writes_only_fields h4
        have hcomm : (s1.applyUpdate u4).applyUpdate u3 =
            (s1.applyUpdate u3).applyUpdate u4 :=
          applyUpdate_comm s1 u4 u3 (Or.inl q1) (Or.inl q2) (Or.inl q3)
            (Or.inl q4) (Or.inr p3) (Or.inl q5) (Or.inl q6)
        simp [runTail, stepError, errOf, mergeStep, applyResult, h3, h4,
          Option.orElse, hcomm]
  · rfl

/-- Final state and completion status of a whole run do not depend on either
superstep's completion order. -/
theorem runWorkflow_pair_eq (a b c d e f) (s0 : GraphState) (o1 o2 : Bool) :
    ((runWorkflow a b c d e f o1 o2 s0).2,
      (runWorkflow a b c d e f o1 o2 s0).1.isCompleted) =
      ((runWorkflow a b c d e f true true s0).2,
        (runWorkflow a b c d e f true true s0).1.isCompleted) := by
  cases o1
  · cases h1 : job_searching_node a b s0 with
    | error er =>
      cases h2 : resume_text_extractor c s0 with
      | error er2 =>
        simp [runWorkflow, stepError, errOf, mergeStep, applyResult, h1, h2,
          Option.orElse, RunOutcome.isCompleted]
      | ok u2 =>
        simp [runWorkflow, stepError, errOf, mergeStep, applyResult, h1, h2,
          Option.orElse, RunOutcome.isCompleted]
    | ok u1 =>
      cases h2 : resume_text_extractor c s0 with
      | error er2 =>
        simp [runWorkflow, stepError, errOf, mergeStep, applyResult, h1, h2,
          Option.orElse, RunOutcome.isCompleted]
      | ok u2 =>
        obtain ⟨p1, p2, p3, p4, p5, p6⟩ := job_searching_node_writes_only_jobs h1
        obtain ⟨q1, q2, q3, q4, q5, q6⟩ :=
          resume_text_extractor_writes_only_text h2
        have hcomm : (s0.applyUpdate u2).applyUpdate u1 =
            (s0.applyUpdate u1).applyUpdate u2 :=
          applyUpdate_comm s0 u2 u1 (Or.inr p1) (Or.inl q1) (Or.inl q2)
            (Or.inl q3) (Or.inl q4) (Or.inl q5) (Or.inl q6)
        simp only [runWorkflow, stepError, errOf, mergeStep, applyResult,
          h1, h2, Option.orElse, hcomm, Bool.false_eq_true, if_false, if_pos]
        exact runTail_pair_eq e d f o2 _
  · simp only [runWorkflow]
    cases hse : stepError true .job_searching_node .resume_text_extractor
        (job_searching_node a b s0) (resume_text_extractor c s0) with
    | some p => obtain ⟨n, er⟩ := p; simp [hse]
    | none => simp only [hse]; exact runTail_pair_eq e d f o2 _

/-- Claim C3: for fixed inputs (adapters and initial state), the final
`GraphState` — and whether the run completed — does not depend on the
relative completion order of the two concurrent branches: any two runs that
differ only in the branches' completion orders yield an identical final
state. -/
theorem final_state_independent_of_branch_order (a b c d e f)
    (s0 : GraphState) (o1 o2 o1' o2' : Bool) :
    (runWorkflow a b c d e f o1 o2 s0).2 =
        (runWorkflow a b c d e f o1' o2' s0).2 ∧
      (runWorkflow a b c d e f o1 o2 s0).1.isCompleted =
        (runWorkflow a b c d e f o1' o2' s0).1.isCompleted := by
  have h := (runWorkflow_pair_eq a b c d e f s0 o1 o2).trans
    (runWorkflow_pair_eq a b c d e f s0 o1' o2').symm
  exact ⟨congrArg Prod.fst h, congrArg Prod.snd h⟩

/-! ## Deduplicated summarization (claim C2) -/

/-- Claim C2: `extract_fields_from_job_desc` processes each listing id at most
once: it skips every job whose id is already in `visited_ids`, records each
id it processes, and produces exactly one summary per distinct
previously-unvisited id — every summary's id is an unvisited listing id, the
summary ids are duplicate-free, every unvisited listing id gets a summary,
and the final visited set is the union of the initial set with the listing
ids. -/
theorem summarize_each_id_at_most_once
    (agent : String → Except String Job_Summary) (jobs : List Job)
    (visited : Finset String) (sums : List Job_Summary) (vout : Finset String)
    (h : summarizeLoop agent jobs visited = .ok (sums, vout)) :
    (sums.map Job_Summary.id).Nodup ∧
    (∀ s_ ∈ sums, s_.id ∈ jobs.map Job.id ∧ s_.id ∉ visited) ∧
    (∀ j ∈ jobs, j.id ∉ visited → j.id ∈ sums.map Job_Summary.id) ∧
    (∀ x, x ∈ vout ↔ x ∈ visited ∨ x ∈ jobs.map Job.id) := by
  induction jobs generalizing visited sums vout with
  | nil =>
    rw [summarizeLoop] at h
    injection h with h
    injection h with h1 h2
    subst h1; subst h2
    simp
  | cons j rest ih =>
    rw [summarizeLoop] at h
    by_cases hjv : j.id ∈ visited
    · rw [if_pos hjv] at h
      obtain ⟨hnd, hmem, hcov, hset⟩ := ih _ _ _ h
      refine ⟨hnd, ?_, ?_, ?_⟩
      · intro s hs
        obtain ⟨hin, hnv⟩ := hmem s hs
        refine ⟨?_, hnv⟩
        simp only [List.map_cons, List.mem_cons]
        exact Or.inr hin
      · intro j' hj' hnv
        rcases List.mem_cons.mp hj' with rfl | hj'
        · exact absurd hjv hnv
        · exact hcov j' hj' hnv
      · intro x
        rw [hset x]
        simp only [List.map_cons, List.mem_cons]
        constructor
        · rintro (hx | hx)
          · exact Or.inl hx
          · exact Or.inr (Or.inr hx)
        · rintro (hx | rfl | hx)
          · exact Or.inl hx
          · exact Or.inl hjv
          · exact Or.inr hx
    · rw [if_neg hjv] at h
      cases ha : agent j.description with
      | error e => rw [ha] at h; exact Except.noConfusion h
      | ok out =>
        rw [ha] at h
        cases hr : summarizeLoop agent rest (insert j.id visited) with
        | error e => rw [hr] at h; exact Except.noConfusion h
        | ok pr =>
          obtain ⟨sums', vout'⟩ := pr
          rw [hr] at h
          injection h with h
          injection h with h1 h2
          subst h1; subst h2
          obtain ⟨hnd, hmem, hcov, hset⟩ := ih _ _ _ hr
          refine ⟨?_, ?_, ?_, ?_⟩
          · simp only [List.map_cons, List.nodup_cons]
            refine ⟨?_, hnd⟩
            intro habs
            obtain ⟨s, hs, hsid⟩ := List.mem_map.mp habs
            exact absurd (Finset.mem_insert_self j.id visited)
              (hsid ▸ (hmem s hs).2)
          · intro s hs
            rcases List.mem_cons.mp hs with rfl | hs
            · refine ⟨?_, hjv⟩
              simp
            · obtain ⟨hin, hnv⟩ := hmem s hs
              refine ⟨?_, fun hv => hnv (Finset.mem_insert_of_mem hv)⟩
              simp only [List.map_cons, List.mem_cons]
              exact Or.inr hin
          · intro j' hj' hnv
            rcases List.mem_cons.mp hj' with rfl | hj'
            · simp
            · by_cases hje : j'.id = j.id
              · simp [hje]
              · have hni : j'.id ∉ insert j.id visited := by
                  simp [Finset.mem_insert, hje, hnv]
                simp only [List.map_cons, List.mem_cons]
                exact Or.inr (hcov j' hj' hni)
          · intro x
            rw [hset x]
            simp only [Finset.mem_insert, List.map_cons, List.mem_cons]
            tauto

/-- Concrete job listing `A` used in witnesses and counterexamples. -/
def jobA : Job := mkJob "A" "descA"

/-- Concrete job listing `B`. -/
def jobB : Job := mkJob "B" "descB"

/-- Concrete job listing `C`. -/
def jobC : Job := mkJob "C" "descC"

/-- A summarization adapter that always succeeds, echoing the description. -/
def summaryAgentOk : String → Except String Job_Summary :=
  fun d => .ok { job_info := d, job_skills := ["skill"], id := "" }

/-- Witness for C2, the spec's seeded-dedup scenario: seeding the visited
set with `A` and running over listings `A, C` yields exactly one new summary
(for `C`) and the final visited set contains exactly `A` and `C`. -/
theorem summarize_each_id_at_most_once_witness :
    (([{ job_info := "descC", job_skills := ["skill"], id := "C" }] :
        List Job_Summary).map Job_Summary.id).Nodup ∧
      ("A" ∈ insert "C" ({"A"} : Finset String) ∧
        "C" ∈ insert "C" ({"A"} : Finset String)) :=
  ⟨(summarize_each_id_at_most_once summaryAgentOk [jobA, jobC] {"A"}
      [{ job_info := "descC", job_skills := ["skill"], id := "C" }]
      (insert "C" {"A"}) (by rfl)).1,
    by decide⟩

/-! ## Adapter failure during summarization (claim C5) -/

/-- A structured query with every field empty. -/
def emptyJobInfo : Job_Info_state :=
  { title := none, location := none, datePosted := none, companyName := none
    companyId := none, skipJobId := none, remote := none
    experienceLevel := none, contractType := none, limit := none }

/-- A job-input agent that always succeeds. -/
def jobInputAgentOk : String → Except String Job_Info_state :=
  fun _ => .ok emptyJobInfo

/-- A scraper returning the two listings `A` and `B`. -/
def scraperAB : Job_Info_state → Except String (List Job) :=
  fun _ => .ok [jobA, jobB]

/-- A PDF reader that succeeds. -/
def pdfReaderOk : Except String String := .ok "resume text"

/-- A resume agent that always succeeds. -/
def resumeAgentOk : String → Except String Resume :=
  fun t => .ok { skills := ["python"], profile := t, Projects := ["p"]
                 Certifications := ["c"], Experience := ["e"]
                 Education := .listVal ["ed"] }

/-- A summarization adapter that succeeds on `A`'s description but raises on
`B`'s. -/
def summaryAgentFailsOnB : String → Except String Job_Summary :=
  fun d =>
    if d = "descB" then .error "AdapterError"
    else .ok { job_info := d, job_skills := ["skill"], id := "" }

/-- A feedback agent that always succeeds with similarity 50. -/
def feedbackAgentOk :
    List String → String → List String → String →
      Except String SimilarAndFeedback :=
  fun _ _ _ _ => .ok { similarity := 50, feedback := "fb" }

/-- The initial state seeded by the invocation surface (`api.py`/`main.py`):
the user query plus empty dedup sets. -/
def initialState : GraphState :=
  { user_input := "find jobs", job_info := none, resume_text := none
    jobs := none, visited_ids := ∅, job_summaries := []
    resume_fields := none, job_feedbacks := [], visited_ids_feedback := ∅ }

/-- The node identity a superstep error reports is one of the two nodes of
that superstep. -/
theorem stepError_node_mem {o : Bool} {n1 n2 : GNode} {r1 r2 p}
    (h : stepError o n1 n2 r1 r2 = some p) : p.1 = n1 ∨ p.1 = n2 := by
  cases o <;> cases r1 <;> cases r2 <;>
    simp_all [stepError, errOf, Option.orElse] <;> simp [← h]

/-- When a superstep error names the first node, the first node's result was
that error. -/
theorem stepError_first_node {o : Bool} {n1 n2 : GNode} {r1 r2 e}
    (hne : n1 ≠ n2) (h : stepError o n1 n2 r1 r2 = some (n1, e)) :
    r1 = .error e := by
  cases o <;> cases r1 <;> cases r2 <;>
    simp_all [stepError, errOf, Option.orElse]

/-- The merge of the first superstep never touches `job_summaries`. -/
theorem mergeStep_first_job_summaries (o : Bool) (s0 : GraphState) (a b c) :
    (mergeStep o s0 (job_searching_node a b s0)
      (resume_text_extractor c s0)).job_summaries = s0.job_summaries := by
  have k1 : ∀ s : GraphState,
      (applyResult s (job_searching_node a b s0)).job_summaries =
        s.job_summaries := by
    intro s
    cases h1 : job_searching_node a b s0 with
    | error e => rfl
    | ok u1 =>
      obtain ⟨_, _, p3, _, _, _⟩ := job_searching_node_writes_only_jobs h1
      simp [applyResult, GraphState.applyUpdate, p3]
  have k2 : ∀ s : GraphState,
      (applyResult s (resume_text_extractor c s0)).job_summaries =
        s.job_summaries := by
    intro s
    cases h2 : resume_text_extractor c s0 with
    | error e => rfl
    | ok u2 =>
      obtain ⟨_, _, q3, _, _, _⟩ := resume_text_extractor_writes_only_text h2
      simp [applyResult, GraphState.applyUpdate, q3]
  cases o <;> simp [mergeStep, k1, k2]

/-- Claim C5 counterexample: with the summarization adapter succeeding on listing
`A` and failing on listing `B`, the run ends FAILED naming
`extract_fields_from_job_desc`, and the returned partial state contains the
raw listings `A, B` but NO summary at all — in particular not `A`'s
already-computed summary, refuting the claim that it is preserved. -/
theorem adapter_failure_partial_state_counterexample :
    (runWorkflow jobInputAgentOk scraperAB pdfReaderOk resumeAgentOk
        summaryAgentFailsOnB feedbackAgentOk true true initialState).1 =
      .failed .extract_fields_from_job_desc "AdapterError" ∧
    (runWorkflow jobInputAgentOk scraperAB pdfReaderOk resumeAgentOk
        summaryAgentFailsOnB feedbackAgentOk true true initialState).2.jobs =
      some [jobA, jobB] ∧
    (runWorkflow jobInputAgentOk scraperAB pdfReaderOk resumeAgentOk
        summaryAgentFailsOnB feedbackAgentOk true true
        initialState).2.job_summaries = [] :=
  ⟨rfl, rfl, rfl⟩

/-- Claim C5 as amended: when the run fails at the summarization node
(`extract_fields_from_job_desc`), the returned partial state keeps the
`jobs` merged in the first superstep, but its `job_summaries` accumulator is
unchanged from the initial state: summaries computed inside the failing node
(such as `A`'s) are discarded, because a node's update is merged only when
the node returns successfully. -/
theorem run_failed_at_summarize_has_no_new_summaries
    (a b c d e f) (o1 o2 : Bool) (s0 : GraphState) (err : String)
    (h : (runWorkflow a b c d e f o1 o2 s0).1 =
      .failed .extract_fields_from_job_desc err) :
    (runWorkflow a b c d e f o1 o2 s0).2.job_summaries = s0.job_summaries ∧
    (runWorkflow a b c d e f o1 o2 s0).2.jobs =
      (mergeStep o1 s0 (job_searching_node a b s0)
        (resume_text_extractor c s0)).jobs := by
  simp only [runWorkflow] at h ⊢
  cases hse1 : stepError o1 .job_searching_node .resume_text_extractor
      (job_searching_node a b s0) (resume_text_extractor c s0) with
  | some p =>
    obtain ⟨n, e2⟩ := p
    rw [hse1] at h
    simp only at h
    injection h with hn he
    rcases stepError_node_mem hse1 with hcase | hcase <;>
      simp_all
  | none =>
    rw [hse1] at h
    simp only at h ⊢
    simp only [runTail] at h ⊢
    cases hse2 : stepError o2 .extract_fields_from_job_desc
        .extract_fields_from_resume
        (extract_fields_from_job_desc e
          (mergeStep o1 s0 (job_searching_node a b s0)
            (resume_text_extractor c s0)))
        (extract_fields_from_resume d
          (mergeStep o1 s0 (job_searching_node a b s0)
            (resume_text_extractor c s0))) with
    | some p =>
      obtain ⟨n, e2⟩ := p
      rw [hse2] at h
      simp only at h ⊢
      injection h with hn he
      subst hn; subst he
      have hr3 : extract_fields_from_job_desc e
          (mergeStep o1 s0 (job_searching_node a b s0)
            (resume_text_extractor c s0)) = .error e2 :=
        stepError_first_node (by simp) hse2
      rw [hr3]
      set s1 := mergeStep o1 s0 (job_searching_node a b s0)
        (resume_text_extractor c s0) with hs1def
      have k4 : ∀ s : GraphState,
          (applyResult s (extract_fields_from_resume d s1)).job_summaries =
              s.job_summaries ∧
            (applyResult s (extract_fields_from_resume d s1)).jobs =
              s.jobs := by
        intro s
        cases h4 : extract_fields_from_resume d s1 with
        | error e3 => exact ⟨rfl, rfl⟩
        | ok u4 =>
          obtain ⟨_, q2, _, q4, _, _⟩ := extract_resume_writes_only_fields h4
          constructor
          · simp [applyResult, GraphState.applyUpdate, q4]
          · simp [applyResult, GraphState.applyUpdate, q2, Option.orElse]
      constructor
      · have hstep : (mergeStep o2 s1 (Except.error e2)
            (extract_fields_from_resume d s1)).job_summaries =
              s1.job_summaries := by
          cases o2 <;> exact (k4 _).1
        rw [hstep, hs1def]
        exact mergeStep_first_job_summaries o1 s0 a b c
      · cases o2 <;> exact (k4 _).2
    | none =>
      rw [hse2] at h
      simp only at h
      cases hj : Feedback_and_similarity f _ with
      | error e2 => rw [hj] at h; simp only at h; injection h with hn he; simp_all
      | ok u => rw [hj] at h; simp only at h; exact RunOutcome.noConfusion h

/-- Witness for the amended C5, at the concrete failing adapters: no summary
survives in the returned partial state. -/
theorem run_failed_at_summarize_witness :
    (runWorkflow jobInputAgentOk scraperAB pdfReaderOk resumeAgentOk
        summaryAgentFailsOnB feedbackAgentOk false true
        initialState).2.job_summaries = initialState.job_summaries ∧
    (runWorkflow jobInputAgentOk scraperAB pdfReaderOk resumeAgentOk
        summaryAgentFailsOnB feedbackAgentOk false true
        initialState).2.jobs =
      (mergeStep false initialState
        (job_searching_node jobInputAgentOk scraperAB initialState)
        (resume_text_extractor pdfReaderOk initialState)).jobs :=
  run_failed_at_summarize_has_no_new_summaries jobInputAgentOk scraperAB
    pdfReaderOk resumeAgentOk summaryAgentFailsOnB feedbackAgentOk
    false true initialState "AdapterError" rfl

/-! ## Similarity score range (claim C8)

The claim (and the node's own docstring, "Calculates similarity score
(0-100)") describes the intended behavior, but the match-feedback stage
cannot emit any score: with a non-empty `job_summaries` the node raises
`AttributeError` at `nodes.py:237` (`job.id` on a TypedDict-dict summary)
and would next hit the undefined constructor name `Job_Feedback` at line
256 — and independently `SimilarAndFeedback.similarity` is a plain `int`
with no `ge`/`le` validator, so even the intended attribute reading would
enforce no range. -/

/-- A concrete extracted resume. -/
def resumeR : Resume :=
  { skills := ["python"], profile := "profile", Projects := ["p"]
    Certifications := ["c"], Experience := ["e"]
    Education := .listVal ["ed"] }

/-- A concrete job summary with id `J1`. -/
def summ0 : Job_Summary :=
  { job_info := "info", job_skills := ["s"], id := "J1" }

/-- A feedback adapter returning similarity 150 — accepted unvalidated. -/
def feedbackAgent150 :
    List String → String → List String → String →
      Except String SimilarAndFeedback :=
  fun _ _ _ _ => .ok { similarity := 150, feedback := "fb" }

/-- The state the join node sees in the claim's scenario: one summary
(id `J1`) arrived from the search branch, resume fields are present, and no
feedback has been produced yet. -/
def joinInputState : GraphState :=
  { user_input := "find jobs", job_info := none
    resume_text := some "resume text", jobs := some [jobA]
    visited_ids := {"A"}, job_summaries := [summ0]
    resume_fields := some resumeR, job_feedbacks := []
    visited_ids_feedback := ∅ }

/-- Claim C8 (code bug): evaluated at a state holding one summary — the
failing input — the match-feedback stage raises the `AttributeError` of
`nodes.py:237` instead of emitting any feedback record, even with an
adapter that would return 150; so no similarity score, in range or not,
ever flows into `job_feedbacks`, and the only completing path is the empty
summaries list, which emits no feedback at all. -/
theorem feedback_stage_crashes_on_first_summary :
    Feedback_and_similarity feedbackAgent150 joinInputState =
      .error "AttributeError: dict object has no attribute id" ∧
    Feedback_and_similarity feedbackAgent150
        { joinInputState with job_summaries := [] } =
      .ok { job_feedbacks := [], visited_ids_feedback := some ∅ } :=
  ⟨rfl, rfl⟩

/-! ## Validation of the requested result limit (claim C4)

In `src/src/structure_outputs.py`, `JobInfo.limit` is declared
`int | None = Field(default=3, le=3, ge=1, ...)`: pydantic's `ge`/`le`
constraints *reject* an out-of-range value with a `ValidationError`; they do
not clamp it. The default `3` applies only when the field is absent from the
model output; an explicit `None` is allowed by the `int | None` annotation. -/

/-- Validation of the `limit` field of `JobInfo`
(`src/src/structure_outputs.py`, lines 104-110). The input is `none` when
the field is absent, `some none` for an explicit null, and `some (some n)`
for a supplied integer. -/
def validateLimit : Option (Option Int) → Except String (Option Int)
  | none => .ok (some 3)
  | some none => .ok none
  | some (some n) =>
    if 1 ≤ n ∧ n ≤ 3 then .ok (some n) else .error "ValidationError"

/-- Claim C4 counterexample: a requested limit of 1000 is rejected with a
`ValidationError`, not clamped to 3. -/
theorem limit_1000_raises_not_clamped_counterexample :
    validateLimit (some (some 1000)) = .error "ValidationError" ∧
      validateLimit (some (some 1000)) ≠ .ok (some 3) := by
  refine ⟨rfl, ?_⟩
  intro h
  rw [show validateLimit (some (some 1000)) = .error "ValidationError"
    from rfl] at h
  exact Except.noConfusion h

/-- Claim C4 amended: an absent limit defaults to 3; a supplied integer limit is
accepted exactly when it lies in `[1, 3]` and is *rejected* with a
`ValidationError` (not clamped) otherwise; consequently every integer limit
that passes validation — and so reaches listing retrieval — lies in
`[1, 3]`. -/
theorem limit_validated_not_clamped (n : Int) :
    validateLimit none = .ok (some 3) ∧
    (validateLimit (some (some n)) = .ok (some n) ↔ 1 ≤ n ∧ n ≤ 3) ∧
    (¬(1 ≤ n ∧ n ≤ 3) →
      validateLimit (some (some n)) = .error "ValidationError") ∧
    (∀ m : Int, validateLimit (some (some n)) = .ok (some m) →
      1 ≤ m ∧ m ≤ 3) := by
  refine ⟨rfl, ?_, ?_, ?_⟩
  · by_cases hc : 1 ≤ n ∧ n ≤ 3
    · simp [validateLimit, hc]
    · simp [validateLimit, hc]
  · intro hc
    simp [validateLimit, hc]
  · intro m hm
    by_cases hc : 1 ≤ n ∧ n ≤ 3
    · simp only [validateLimit, if_pos hc] at hm
      injection hm with hm
      injection hm with hm
      subst hm
      exact hc
    · simp [validateLimit, hc] at hm

/-! ## Resume field defaults (claim C7)

The pydantic defaults of `class Resume` apply only when a field is *absent*
from the model output; an explicitly returned empty list is kept as-is.
Moreover `Education`'s default is the raw string `'[No Education]'` (pydantic
does not validate defaults), not a single-element list. -/

/-- The fields present in the resume agent's raw output, before pydantic
fills in defaults: `none` means the field was absent. -/
structure ResumePayload where
  skills : Option (List String) := none
  profile : Option String := none
  Projects : Option (List String) := none
  Certifications : Option (List String) := none
  Experience : Option (List String) := none
  Education : Option (List String) := none
deriving DecidableEq

/-- Validation of the resume agent's output against `class Resume`
(`src/src/structure_outputs.py`, lines 167-202): absent fields receive the
declared defaults, present fields are kept unchanged. -/
def validateResume (p : ResumePayload) : Resume :=
  { skills := p.skills.getD ["No skills"]
    profile := p.profile.getD "No profile"
    Projects := p.Projects.getD ["No Projects"]
    Certifications := p.Certifications.getD ["No Certifications"]
    Experience := p.Experience.getD ["No Experience"]
    Education :=
      match p.Education with
      | some l => .listVal l
      | none => .strVal "[No Education]" }

/-- Claim C7 counterexample: an extraction output that explicitly contains an
empty `skills` list keeps the empty list — it is not replaced by the
`['No skills']` sentinel, so an empty collection can be returned. -/
theorem empty_skills_kept_counterexample :
    (validateResume { skills := some [] }).skills = [] ∧
      (validateResume { skills := some [] }).skills ≠ ["No skills"] := by
  refine ⟨rfl, ?_⟩
  intro h
  rw [show (validateResume { skills := some [] }).skills = [] from rfl] at h
  exact List.noConfusion h

/-- Claim C7 amended: the sentinel defaults are applied only to fields *absent*
from the extraction output (and `Education`'s default is the raw string
`'[No Education]'`, not a list); a field explicitly returned as an empty
list stays empty, so the result contains an empty list exactly when the
agent returned one. -/
theorem resume_defaults_only_for_missing_fields (p : ResumePayload) :
    ((validateResume p).skills = [] ↔ p.skills = some []) ∧
    ((validateResume p).Projects = [] ↔ p.Projects = some []) ∧
    ((validateResume p).Certifications = [] ↔ p.Certifications = some []) ∧
    ((validateResume p).Experience = [] ↔ p.Experience = some []) ∧
    ((validateResume p).Education = .listVal [] ↔ p.Education = some []) ∧
    validateResume {} =
      { skills := ["No skills"], profile := "No profile"
        Projects := ["No Projects"], Certifications := ["No Certifications"]
        Experience := ["No Experience"]
        Education := .strVal "[No Education]" } := by
  refine ⟨?_, ?_, ?_, ?_, ?_, rfl⟩
  · cases hp : p.skills <;> simp [validateResume, hp]
  · cases hp : p.Projects <;> simp [validateResume, hp]
  · cases hp : p.Certifications <;> simp [validateResume, hp]
  · cases hp : p.Experience <;> simp [validateResume, hp]
  · cases hp : p.Education <;> simp [validateResume, hp]

/-! ## Bounded polling for dataset items (claim C9)

`fetch_dataset_items_with_wait` (`src/src/tools/scraping_tools.py`, lines
120-151) polls the dataset URL in a loop: a non-empty JSON response is
returned immediately; on an empty response, if the elapsed time has reached
`wait_seconds` the function returns `[]` (a valid, non-erroneous result),
otherwise it sleeps `poll_interval` seconds and polls again. The embedding
abstracts the HTTP responses as `polls k` (the k-th response's items) and
real time as `elapsed k` (seconds elapsed when the k-th response is
examined); `fuel` bounds the number of observed iterations, with `none`
standing for a run still polling past the bound. -/

def fetch_dataset_items_with_wait {α : Type} (polls : Nat → List α)
    (elapsed : Nat → Nat) (wait_seconds : Nat) :
    Nat → Nat → Option (List α)
  | 0, _ => none
  | fuel + 1, k =>
    if (polls k).isEmpty then
      if wait_seconds ≤ elapsed k then some []
      else fetch_dataset_items_with_wait polls elapsed wait_seconds fuel (k + 1)
    else some (polls k)

/-- Claim C9: when every poll of the dataset yields no items, the function
returns the empty list — a normal result, not an error — as soon as the
elapsed time reaches the wait budget (provided that happens within the
observed iterations); and whenever a poll observes non-empty data, that
data is returned immediately. -/
theorem polling_returns_empty_after_budget {α : Type}
    (polls : Nat → List α) (elapsed : Nat → Nat) (wait_seconds fuel k : Nat) :
    ((∀ i, polls i = []) →
      (∃ i, i < fuel ∧ wait_seconds ≤ elapsed (k + i)) →
      fetch_dataset_items_with_wait polls elapsed wait_seconds fuel k =
        some []) ∧
    (polls k ≠ [] →
      fetch_dataset_items_with_wait polls elapsed wait_seconds (fuel + 1) k =
        some (polls k)) := by
  constructor
  · induction fuel generalizing k with
    | zero =>
      rintro _ ⟨i, hi, _⟩
      exact absurd hi (Nat.not_lt_zero i)
    | succ fuel ih =>
      rintro hempty ⟨i, hi, hw⟩
      rw [fetch_dataset_items_with_wait]
      rw [hempty k]
      simp only [List.isEmpty_nil, if_true]
      by_cases hwk : wait_seconds ≤ elapsed k
      · rw [if_pos hwk]
      · rw [if_neg hwk]
        apply ih (k + 1) hempty
        cases i with
        | zero => exact absurd hw (by simpa using hwk)
        | succ i' =>
          refine ⟨i', Nat.lt_of_succ_lt_succ hi, ?_⟩
          have harith : k + 1 + i' = k + (i' + 1) := by omega
          rw [harith]
          exact hw
  · intro hne
    cases hp : polls k with
    | nil => exact absurd hp hne
    | cons x xs =>
      rw [fetch_dataset_items_with_wait]
      simp [hp]

/-- Witness for C9: an always-empty dataset with one-second polls and a
20-second budget returns the valid empty result. -/
theorem polling_returns_empty_after_budget_witness :
    fetch_dataset_items_with_wait (fun _ => ([] : List Nat))
      (fun i => 2 * i) 20 12 0 = some [] :=
  (polling_returns_empty_after_budget (fun _ => ([] : List Nat))
      (fun i => 2 * i) 20 12 0).1 (fun _ => rfl)
    ⟨10, by decide, by decide⟩

/-! ## API handler and persistence failure (claim C6)

`process_job_search` in `src/src/api.py` runs the workflow, then saves the
results inside its own `try/except` — a database failure is logged
("Failed to save to database") and execution continues — and finally
serializes the final state into the HTTP response. Any other exception is
turned into a 500 error ("Failed to process job search: ..."). -/

/-- Response model `JobSummaryResponse` of `src/src/api.py`. -/
structure JobSummaryResponse where
  id : String
  job_info : String
  job_skills : List String
deriving DecidableEq

/-- Response model `JobFeedbackResponse` of `src/src/api.py`. The source
would fill `id` from `feedback.id` (line 226) — an attribute `Job_Feadback`
does not have — so no instance is ever built from a feedback record; see
`serializeResults`. -/
structure JobFeedbackResponse where
  id : String
  similarity : Int
  feedback : String
deriving DecidableEq

/-- Response model `ResumeFieldsResponse` of `src/src/api.py`
(`Education: List[str]`). -/
structure ResumeFieldsResponse where
  skills : List String
  profile : String
  Projects : List String
  Certifications : List String
  Experience : List String
  Education : List String
deriving DecidableEq

/-- Response model `JobSearchResponse` of `src/src/api.py`. -/
structure JobSearchResponse where
  success : Bool
  job_summaries : List JobSummaryResponse
  job_feedbacks : List JobFeedbackResponse
  resume_fields : ResumeFieldsResponse
  message : String
deriving DecidableEq

/-- Serialization of the final workflow state into the response
(`src/src/api.py`, lines 214-247) as it executes: the summaries loop
(lines 216-221) reads `job.id`/`job.job_info`/`job.job_skills` — attribute
accesses on `Job_Summary(TypedDict)` dicts, raising `AttributeError` on the
first summary; the feedbacks loop (lines 224-229) reads `feedback.id`,
which `Job_Feadback` does not have (its field is `job_id`), raising
likewise; then `.skills` on a missing `resume_fields` raises, and a
string-valued `Education` fails the `List[str]` response validation. Only a
state with empty summaries and feedbacks lists and present, list-educated
resume fields serializes, with both response lists empty. -/
def serializeResults (s : GraphState) : Except String JobSearchResponse :=
  match s.job_summaries with
  | _ :: _ => .error "AttributeError: dict object has no attribute id"
  | [] =>
    match s.job_feedbacks with
    | _ :: _ => .error "AttributeError: Job_Feadback object has no attribute id"
    | [] =>
      match s.resume_fields with
      | none => .error "AttributeError: resume_fields is None"
      | some rf =>
        match rf.Education with
        | .strVal _ => .error "ResponseValidationError: Education"
        | .listVal edu =>
          .ok { success := true
                job_summaries := []
                job_feedbacks := []
                resume_fields :=
                  { skills := rf.skills, profile := rf.profile
                    Projects := rf.Projects
                    Certifications := rf.Certifications
                    Experience := rf.Experience, Education := edu }
                message := "Job search completed successfully" }

/-- The `process_job_search` handler from the workflow invocation on
(`src/src/api.py`, lines 191-254): a workflow error becomes a 500 error; a
save error is caught and logged and execution continues; the response is
serialized from the final state either way. -/
def process_job_search (workflow_result : Except String GraphState)
    (save_result : Except String Unit) : Except String JobSearchResponse :=
  match workflow_result with
  | .error e => .error ("Failed to process job search: " ++ e)
  | .ok final =>
    match save_result with
    | .ok _ =>
      match serializeResults final with
      | .ok resp => .ok resp
      | .error e => .error ("Failed to process job search: " ++ e)
    | .error _dbErr =>
      match serializeResults final with
      | .ok resp => .ok resp
      | .error e => .error ("Failed to process job search: " ++ e)

/-- A final state holding one summary and one feedback: the inputs the
original claim envisions for the serializer. No completed run can actually
produce such a state (the join crashes on any non-empty summaries, see
`feedbackLoop`), but `api.py`'s post-workflow code is modelled on arbitrary
final states. -/
def nonemptyFinalState : GraphState :=
  { user_input := "find jobs", job_info := none
    resume_text := some "resume text", jobs := some [jobA]
    visited_ids := {"A"}, job_summaries := [summ0]
    resume_fields := some resumeR
    job_feedbacks := [{ similarity := 50, job_id := "J1", feedback := "fb" }]
    visited_ids_feedback := {"J1"} }

/-- Claim C6 counterexample: at a final state holding one summary and one
feedback, the serializer's attribute reads raise, so the handler returns
the 500 error — not the claimed success response with the full results —
and it does so whether or not the persistence step failed. -/
theorem nonempty_results_not_returned_counterexample :
    process_job_search (.ok nonemptyFinalState) (.error "db write failed") =
      .error ("Failed to process job search: " ++
        "AttributeError: dict object has no attribute id") ∧
    process_job_search (.ok nonemptyFinalState) (.ok ()) =
      .error ("Failed to process job search: " ++
        "AttributeError: dict object has no attribute id") :=
  ⟨rfl, rfl⟩

/-- Claim C6 as amended: a persistence failure is caught and logged and
never changes the handler's response — it is identical to the response
with a successful save — and on the final states a completed run can
actually produce (empty `job_summaries` and `job_feedbacks`, since the
join raises on any summary, with resume fields present and a list-typed
`Education`), that response is the success response carrying the resume
fields and the (empty) summaries and feedbacks lists, despite the storage
failure; for a state with non-empty lists the serializer itself raises and
the handler returns a 500 regardless of the save outcome. -/
theorem persistence_failure_still_returns_results
    (s : GraphState) (rf : Resume) (edu : List String) (dbErr : String)
    (hsums : s.job_summaries = []) (hfbs : s.job_feedbacks = [])
    (hrf : s.resume_fields = some rf) (hedu : rf.Education = .listVal edu) :
    process_job_search (.ok s) (.error dbErr) =
        process_job_search (.ok s) (.ok ()) ∧
    process_job_search (.ok s) (.error dbErr) =
      .ok { success := true
            job_summaries := []
            job_feedbacks := []
            resume_fields :=
              { skills := rf.skills, profile := rf.profile
                Projects := rf.Projects
                Certifications := rf.Certifications
                Experience := rf.Experience, Education := edu }
            message := "Job search completed successfully" } := by
  constructor
  · rfl
  · simp [process_job_search, serializeResults, hsums, hfbs, hrf, hedu]

/-- A final state as a completed run actually leaves it: empty summaries
and feedbacks accumulators, resume fields present. -/
def emptyResultsState : GraphState :=
  { user_input := "find jobs", job_info := none
    resume_text := some "resume text", jobs := some []
    visited_ids := ∅, job_summaries := []
    resume_fields := some resumeR, job_feedbacks := []
    visited_ids_feedback := ∅ }

/-- Witness for the amended C6: at a concrete completed-run state, a
database write failure produces the very same successful response as a
successful save. -/
theorem persistence_failure_still_returns_results_witness :
    process_job_search (.ok emptyResultsState) (.error "db write failed") =
      process_job_search (.ok emptyResultsState) (.ok ()) :=
  (persistence_failure_still_returns_results emptyResultsState resumeR ["ed"]
    "db write failed" rfl rfl rfl rfl).1

/-! ## Persistence layer (`src/src/db_operations.py`, claim C10)

`save_workflow_results` stages one search-history row and one job-listing
row per not-yet-stored listing id, then builds the lookup dicts
`summaries_dict = {s.id: s ...}` and `feedbacks_dict = {f.id: f ...}`
(lines 199-200) — which raise `AttributeError` for any non-empty input: the
summaries arriving from the workflow state are `Job_Summary(TypedDict)`
dicts with no `id` attribute, and `Job_Feadback` has no `id` field either
(the module even does `from src.state import Job, Job_Feedback`, a name
`state.py` does not define, so it cannot be imported as written). Only with
both lists empty does the (then empty) analyses loop and the single
`session.commit()` run; every exception path executes the except clause,
`session.rollback()` then `raise`. The session is modelled as an operation
trace interpreted against an explicit database value: `add*` operations
stage pending rows, `commit` applies all pending rows, `rollback` discards
them. -/

/-- Row of the `SearchHistory` table (`src/src/models.py`). -/
structure SearchHistoryRow where
  user_query : String
  resume_name : String
deriving DecidableEq

/-- Row of the `JobListing` table (`src/src/models.py`). -/
structure JobListingRow where
  id : String
  title : String
  company_name : String
  location : String
  apply_url : String
  description : String
  posted_date : String
deriving DecidableEq

/-- Row of the `JobAnalysis` table (`src/src/models.py`); `skills` stands
for the JSON-encoded `required_skills_json`. -/
structure JobAnalysisRow where
  job_id : String
  summary : String
  skills : List String
  similarity_score : Int
  feedback : String
deriving DecidableEq

/-- One session operation. -/
inductive DbOp where
  | addHistory (r : SearchHistoryRow)
  | addListing (r : JobListingRow)
  | addAnalysis (r : JobAnalysisRow)
  | updateAnalysis (r : JobAnalysisRow)
  | commit
  | rollback
deriving DecidableEq

/-- The database contents. -/
structure DB where
  history : List SearchHistoryRow
  listings : List JobListingRow
  analyses : List JobAnalysisRow
deriving DecidableEq

/-- Apply one staged operation to the database at commit time. -/
def applyPending (db : DB) : DbOp → DB
  | .addHistory r => { db with history := db.history ++ [r] }
  | .addListing r => { db with listings := db.listings ++ [r] }
  | .addAnalysis r => { db with analyses := db.analyses ++ [r] }
  | .updateAnalysis r =>
    { db with analyses :=
        db.analyses.map fun a => if a.job_id = r.job_id then r else a }
  | .commit => db
  | .rollback => db

/-- Interpret a session trace: `add`/`update` operations are staged pending;
`commit` persists all pending operations; `rollback` discards them.
Returns the committed database. -/
def runSession (db : DB) (pending : List DbOp) : List DbOp → DB
  | [] => db
  | op :: rest =>
    match op with
    | .commit => runSession (pending.foldl applyPending db) [] rest
    | .rollback => runSession db [] rest
    | _ => runSession db (pending ++ [op]) rest

/-- Staged listing rows of `save_job_listing` over the `jobs` loop: a
listing is skipped when its id is already in the database or already staged
earlier in this call (`session.get` after autoflush). -/
def stageListings (db : DB) : List Job → List String → List DbOp
  | [], _ => []
  | job :: rest, staged =>
    if job.id ∈ db.listings.map JobListingRow.id ∨ job.id ∈ staged then
      stageListings db rest staged
    else
      .addListing { id := job.id, title := job.title
                    company_name := job.companyName
                    location := job.location, apply_url := job.applyUrl
                    description := job.description
                    posted_date := job.postedDate } ::
        stageListings db rest (staged ++ [job.id])

/-- The function `save_workflow_results` (`src/src/db_operations.py`, lines
171-219) as a session trace, as it executes: the history row and the
deduplicated listing rows are staged; then `{s.id: s for s in
job_summaries}` raises `AttributeError` on the first summary (a TypedDict
dict) whenever `job_summaries` is non-empty, and otherwise `{f.id: f for f
in job_feedbacks}` raises on the first feedback (`Job_Feadback` has no `id`
field) whenever `job_feedbacks` is non-empty — each exception path runs the
`except` clause, rolling back and re-raising. Only with both lists empty is
the analyses loop (over the empty dict, staging nothing) followed by the
one `session.commit()`; a commit failure (`commit_error`) is rolled back
and re-raised the same way. -/
def save_workflow_results (db : DB) (user_query resume_name : String)
    (jobs : List Job) (job_summaries : List Job_Summary)
    (job_feedbacks : List Job_Feadback) (commit_error : Option String) :
    List DbOp × Option String :=
  let adds := DbOp.addHistory { user_query := user_query
                                resume_name := resume_name } ::
    stageListings db jobs []
  match job_summaries with
  | _ :: _ =>
    (adds ++ [DbOp.rollback],
      some "AttributeError: dict object has no attribute id")
  | [] =>
    match job_feedbacks with
    | _ :: _ =>
      (adds ++ [DbOp.rollback],
        some "AttributeError: Job_Feadback object has no attribute id")
    | [] =>
      match commit_error with
      | none => (adds ++ [DbOp.commit], none)
      | some e => (adds ++ [DbOp.rollback], some e)

/-- Whether a session operation is a commit. -/
def isCommit : DbOp → Bool
  | .commit => true
  | _ => false

/-- The job id an analysis operation writes, if it is one. -/
def analysisOpId : DbOp → Option String
  | .addAnalysis r => some r.job_id
  | .updateAnalysis r => some r.job_id
  | _ => none

/-- Every operation staged for the listings loop is an `addListing`. -/
theorem stageListings_shape (db : DB) :
    ∀ (jobs : List Job) (staged : List String) (op : DbOp),
      op ∈ stageListings db jobs staged → ∃ r, op = .addListing r := by
  intro jobs
  induction jobs with
  | nil => intro staged op hop; simp [stageListings] at hop
  | cons j rest ih =>
    intro staged op hop
    rw [stageListings] at hop
    split at hop
    · exact ih staged op hop
    · rcases List.mem_cons.mp hop with rfl | hop
      · exact ⟨_, rfl⟩
      · exact ih _ op hop

/-- None of the operations `save_workflow_results` stages before the dict
building is a commit, and none is an analysis operation. -/
theorem staged_adds_shape (db : DB) (uq rn : String) (jobs : List Job)
    (op : DbOp)
    (hop : op ∈ DbOp.addHistory { user_query := uq, resume_name := rn } ::
      stageListings db jobs []) :
    isCommit op = false ∧ analysisOpId op = none := by
  rcases List.mem_cons.mp hop with rfl | hop
  · exact ⟨rfl, rfl⟩
  · obtain ⟨r, rfl⟩ := stageListings_shape db jobs [] op hop
    exact ⟨rfl, rfl⟩

/-- A trace of non-commit operations followed by a rollback leaves the
committed database unchanged. -/
theorem runSession_rollback (db : DB) :
    ∀ (l : List DbOp) (pending : List DbOp),
      (∀ op ∈ l, isCommit op = false) →
      runSession db pending (l ++ [.rollback]) = db := by
  intro l
  induction l with
  | nil => intro pending _; rfl
  | cons op rest ih =>
    intro pending h
    cases op with
    | commit =>
      have hc := h _ (List.mem_cons_self _ _)
      simp [isCommit] at hc
    | rollback => exact ih [] fun o ho => h o (List.mem_cons_of_mem _ ho)
    | addHistory r => exact ih _ fun o ho => h o (List.mem_cons_of_mem _ ho)
    | addListing r => exact ih _ fun o ho => h o (List.mem_cons_of_mem _ ho)
    | addAnalysis r => exact ih _ fun o ho => h o (List.mem_cons_of_mem _ ho)
    | updateAnalysis r =>
      exact ih _ fun o ho => h o (List.mem_cons_of_mem _ ho)

/-- On every input, `save_workflow_results` stages no analysis operation at
all: the lookup-dict attribute errors abort any call with a non-empty
summaries or feedbacks list, and with both lists empty the analyses loop
has nothing to iterate. -/
theorem save_never_stages_analyses (db : DB) (uq rn : String)
    (jobs : List Job) (sums : List Job_Summary) (fbs : List Job_Feadback)
    (ce : Option String) :
    ∀ op ∈ (save_workflow_results db uq rn jobs sums fbs ce).1,
      analysisOpId op = none := by
  intro op hop
  have hlast : ∀ op2 : DbOp, op2 = .commit ∨ op2 = .rollback →
      analysisOpId op2 = none := by
    rintro op2 (rfl | rfl) <;> rfl
  cases sums with
  | cons s rest =>
    rcases List.mem_append.mp hop with h | h
    · exact (staged_adds_shape db uq rn jobs op h).2
    · rw [List.mem_singleton] at h
      exact hlast op (Or.inr h)
  | nil =>
    cases fbs with
    | cons f rest =>
      rcases List.mem_append.mp hop with h | h
      · exact (staged_adds_shape db uq rn jobs op h).2
      · rw [List.mem_singleton] at h
        exact hlast op (Or.inr h)
    | nil =>
      cases ce with
      | none =>
        rcases List.mem_append.mp hop with h | h
        · exact (staged_adds_shape db uq rn jobs op h).2
        · rw [List.mem_singleton] at h
          exact hlast op (Or.inl h)
      | some e =>
        rcases List.mem_append.mp hop with h | h
        · exact (staged_adds_shape db uq rn jobs op h).2
        · rw [List.mem_singleton] at h
          exact hlast op (Or.inr h)

/-- Whenever `save_workflow_results` re-raises an exception — the dict
attribute errors as well as a failing commit — interpreting its trace
leaves the committed database exactly as it was. -/
theorem save_failure_leaves_db_unchanged (db : DB) (uq rn : String)
    (jobs : List Job) (sums : List Job_Summary) (fbs : List Job_Feadback)
    (ce : Option String) (e : String)
    (h : (save_workflow_results db uq rn jobs sums fbs ce).2 = some e) :
    runSession db [] (save_workflow_results db uq rn jobs sums fbs ce).1 =
      db := by
  have hnc : ∀ op ∈ DbOp.addHistory { user_query := uq, resume_name := rn } ::
      stageListings db jobs [], isCommit op = false :=
    fun op hop => (staged_adds_shape db uq rn jobs op hop).1
  cases sums with
  | cons s rest => exact runSession_rollback db _ [] hnc
  | nil =>
    cases fbs with
    | cons f rest => exact runSession_rollback db _ [] hnc
    | nil =>
      cases ce with
      | none => simp [save_workflow_results] at h
      | some e2 => exact runSession_rollback db _ [] hnc

/-- The empty database. -/
def db0 : DB := { history := [], listings := [], analyses := [] }

/-- A feedback record for job `J1`, as `save_workflow_results` would
receive it. -/
def fb50 : Job_Feadback :=
  { similarity := 50, job_id := "J1", feedback := "fb" }

/-- Claim C10 (code bug): called with one listing, one summary and one
matching feedback and a healthy database (no commit failure) — the failing
input — `save_workflow_results` raises `AttributeError` while building
`summaries_dict` (the summaries are TypedDict dicts without an `id`
attribute), so the except clause rolls the session back and re-raises:
nothing is committed, the database is left unchanged, and no analysis
operation is ever staged — although the function's docstring, the
`JobAnalysis` schema and `save_job_analysis` intend exactly these analyses
to be saved by the single final commit. -/
theorem save_raises_before_staging_analyses :
    (save_workflow_results db0 "query" "resume.pdf" [jobA] [summ0] [fb50]
        none).2 = some "AttributeError: dict object has no attribute id" ∧
    (save_workflow_results db0 "query" "resume.pdf" [jobA] [summ0] [fb50]
        none).1.countP isCommit = 0 ∧
    runSession db0 []
      (save_workflow_results db0 "query" "resume.pdf" [jobA] [summ0] [fb50]
        none).1 = db0 ∧
    ∀ op ∈ (save_workflow_results db0 "query" "resume.pdf" [jobA] [summ0]
      [fb50] none).1, analysisOpId op = none := by
  refine ⟨rfl, ?_, ?_, ?_⟩ <;> decide

end JobAgent
